import Mathlib

/-!
Verification development for the bottleneck traffic-notification repository.

The embedding is split in two worlds, mirroring the two layers of the source:

* `Main` — a shallow embedding of `src/main.py`: its own `Config`, event
  model, `parse_postcode`, `is_relevant_event`, `notify_home_assistant` and
  the orchestration `main`.  HTTP fetch is external, so the fetched feed is
  an input; the notification sink and the log are recorded as output traces.
* `Models` / `Ledger` — a shallow embedding of `src/models.py`,
  `src/util.py` and `src/config.py`: the richer event model with ids, the
  relevancy criteria (`EventRelevancyConfig`), the parsing helpers, and the
  `NotifiedEvents` ledger with its file-backed persistence.

File contents for the ledger path are modelled by `Ledger.FileData`:
`absent` (no file), `rawEmpty` (the zero-byte file produced by
`Path.touch()`), `stored m` (the file holds the JSON serialization of a
ledger model `m`; pydantic round-trips this schema, so deserialization
returns `m`), and `corrupt` (contents that do not validate).
-/

namespace Util

/-- Python `str.split(sep)` over character lists: scan left to right for
non-overlapping occurrences of `sep`.  Structural recursion on an explicit
fuel so that the kernel can evaluate it; `acc` holds the characters of the
current token in reverse. -/
def pySplitAux (sep : List Char) : Nat → List Char → List Char → List (List Char)
  | _, acc, [] => [acc.reverse]
  | 0, acc, rest => [acc.reverse ++ rest]
  | fuel + 1, acc, c :: rest =>
    if sep.isPrefixOf (c :: rest) then
      acc.reverse :: pySplitAux sep fuel [] ((c :: rest).drop sep.length)
    else
      pySplitAux sep fuel (c :: acc) rest

/-- Python `s.split(sep)` on strings (`"".split(sep)` is `[""]`). -/
def pySplit (sep s : String) : List String :=
  (pySplitAux sep.toList s.toList.length [] s.toList).map String.mk

/-- Python `str.isdigit()` restricted to ASCII content: non-empty and every
character a decimal digit.  (This coincides with `String.isNat`.) -/
def pyIsdigit (s : String) : Bool :=
  !s.toList.isEmpty && s.toList.all Char.isDigit

/-- Value of Python `int(s)` on an all-digit string: the decimal fold. -/
def digitsToNat (cs : List Char) : Nat :=
  cs.foldl (fun n c => n * 10 + (c.toNat - '0'.toNat)) 0

/-- Python `str.strip()`: drop whitespace from both ends. -/
def pyStrip (s : String) : String :=
  String.mk ((((s.toList.dropWhile Char.isWhitespace).reverse).dropWhile
    Char.isWhitespace).reverse)

/-- `src/util.py::parse_postcode` (also duplicated in `src/main.py`):
`"-"` is a sentinel for no value; otherwise split on `" / "`, keep only
digit-only tokens, and convert them with Python `int`. -/
def parse_postcode (postcodes : String) : List Int :=
  if postcodes == "-" then []
  else ((pySplit " / " postcodes).filter pyIsdigit).map
    (fun p => Int.ofNat (digitsToNat p.toList))

/-- `src/util.py::parse_suburbs`: `None` or `"-"` yields no values;
otherwise split on `" / "` and strip each token. -/
def parse_suburbs (suburbs : Option String) : List String :=
  match suburbs with
  | none => []
  | some s => if s == "-" then [] else (pySplit " / " s).map pyStrip

end Util

namespace Main

/-- `src/main.py::Impact`. -/
structure Impact where
  impact_type : String
  impact_subtype : Option String
  delay : Option String
  deriving DecidableEq, Repr

/-- `src/main.py::RoadSummary`. -/
structure RoadSummary where
  road_name : Option String
  locality : Option String
  postcode : String
  local_government_area : String
  deriving DecidableEq, Repr

/-- `src/main.py::Properties` (`published` kept as its serialized text). -/
structure Properties where
  area_alert : Bool
  status : String
  published : Option String
  event_type : String
  event_subtype : String
  impact : Impact
  event_priority : String
  road_summary : RoadSummary
  deriving DecidableEq, Repr

/-- `src/main.py::Event`. -/
structure Event where
  properties : Properties
  deriving DecidableEq, Repr

/-- `src/main.py::Config`, with the two comma-separated criteria fields
taken as the already-resolved sets they denote (`relevant_postcodes` and
`relevant_suburbs` cached properties). -/
structure Config where
  QLD_TRAFFIC_BASE_URL : String
  QLD_TRAFFIC_API_KEY : String
  HOME_ASSISTANT_BASE_URL : String
  HOME_ASSISTANT_ACCESS_TOKEN : String
  relevant_postcodes : List Int
  relevant_suburbs : List String
  deriving DecidableEq, Repr

/-- `src/main.py::is_relevant_event`: relevant iff any postcode parsed from
the event's road summary is among the configured postcodes. -/
def is_relevant_event (config : Config) (event : Event) : Bool :=
  let postcodes_parsed := Util.parse_postcode event.properties.road_summary.postcode
  postcodes_parsed.any (fun p => config.relevant_postcodes.contains p)

/-- One POST to the notification sink. -/
structure SinkCall where
  path : String
  description : String
  deriving DecidableEq, Repr

/-- The only in-model failure of `src/main.py`: the tuple unpacking
`most_relevant_event, *rest = relevant_events` raises `ValueError` on an
empty list. -/
inductive Err where
  | emptyRelevantList
  deriving DecidableEq, Repr

/-- `src/main.py::notify_home_assistant`: destructure the relevant list,
render one description summarizing the head plus a count of the rest, and
issue a single POST. -/
def notify_home_assistant (relevant_events : List Event) : Except Err SinkCall :=
  match relevant_events with
  | [] => .error .emptyRelevantList
  | most_relevant_event :: rest =>
    let most_relevant_event_summary := most_relevant_event.properties.event_subtype
    let description := most_relevant_event_summary ++
      (if rest.length > 0 then " + " ++ toString rest.length ++ " more" else "")
    .ok { path := "/api/events/traffic_event", description := description }

end Main

namespace Ledger

/-- `src/models.py::NotifiedEvent`. -/
structure NotifiedEvent where
  event_id : Int
  reason : String
  deriving DecidableEq, Repr

/-- `src/config.py::NotifiedEvents.Model`. -/
structure Model where
  events : List NotifiedEvent
  version : Int
  deriving DecidableEq, Repr

/-- Contents of the ledger file at `NOTIFIED_EVENTS_PATH`. -/
inductive FileData where
  | absent
  | rawEmpty
  | stored (m : Model)
  | corrupt
  deriving DecidableEq, Repr

/-- Pydantic `ValidationError` raised by `model_validate_json`. -/
inductive Err where
  | validationError
  deriving DecidableEq, Repr

end Ledger

namespace Main

/-- The observable outcome of one run of `src/main.py::main`: structured
log lines as (message, executed_at) pairs, the count of `print` calls, the
POSTs made to the Home Assistant sink, and the ledger file afterwards
(`main` never touches the ledger file, so it is returned unchanged). -/
structure RunOut where
  logs : List (String × String)
  prints : Nat
  sinkCalls : List SinkCall
  file : Ledger.FileData
  deriving DecidableEq, Repr

/-- `src/main.py::main`: filter the fetched feed with `is_relevant_event`;
if nothing is relevant, log one line carrying the run timestamp and stop;
otherwise print the relevant list and notify Home Assistant once. -/
def main (config : Config) (executed_at : String) (feed : List Event)
    (file : Ledger.FileData) : Except Err RunOut :=
  let relevant_events := feed.filter (fun e => is_relevant_event config e)
  if relevant_events.length = 0 then
    .ok { logs := [("no relevant events found", executed_at)], prints := 0,
          sinkCalls := [], file := file }
  else
    match notify_home_assistant relevant_events with
    | .error e => .error e
    | .ok call =>
      .ok { logs := [], prints := 1, sinkCalls := [call], file := file }

/-- Number of sink POSTs a run performed (an aborted run posts nothing that
`raise_for_status` accepted). -/
def sinkCount (r : Except Err RunOut) : Nat :=
  match r with
  | .error _ => 0
  | .ok o => o.sinkCalls.length

/-- Ledger file after a run (unchanged on abort). -/
def fileAfter (f : Ledger.FileData) (r : Except Err RunOut) : Ledger.FileData :=
  match r with
  | .error _ => f
  | .ok o => o.file

end Main

namespace Models

/-- `src/models.py::Impact`. -/
structure Impact where
  impact_type : String
  impact_subtype : Option String
  towards : Option String
  delay : Option String
  deriving DecidableEq, Repr

/-- `src/models.py::Duration` (timestamps kept as serialized text; the
source field `end` is a Lean keyword, embedded as `end_`). -/
structure Duration where
  start : Option String
  end_ : Option String
  deriving DecidableEq, Repr

/-- `src/models.py::RoadSummary`. -/
structure RoadSummary where
  road_name : Option String
  locality : Option String
  postcode : String
  local_government_area : String
  district : String
  deriving DecidableEq, Repr

/-- `src/models.py::Event`: the richer event model carrying the feed id. -/
structure Event where
  id : Int
  area_alert : Bool
  status : String
  published : Option String
  event_type : String
  event_subtype : String
  event_priority : String
  impact : Impact
  duration : Duration
  road_summary : RoadSummary
  deriving DecidableEq, Repr

end Models

namespace Criteria

/-- `src/config.py::DEFAULT_RELEVANT_EVENT_TYPES`. -/
def DEFAULT_RELEVANT_EVENT_TYPES : List String :=
  ["Congestion", "Crash", "Flooding", "Hazard", "Roadworks"]

/-- `src/config.py::EventRelevancyConfig` (sets embedded as lists with
`contains` membership). -/
structure EventRelevancyConfig where
  types : List String
  postcodes : List Int
  suburbs : List String
  towards_suburbs : List String
  deriving DecidableEq, Repr

/-- The classifier's relevancy outcome. -/
inductive Verdict where
  | Irrelevant
  | RelevantByPostcode
  | RelevantBySuburb
  | RelevantByTowards
  deriving DecidableEq, Repr

/-- Modelled from the spec: the relevancy classifier
`classify(criteria, event)` over `EventRelevancyConfig` is not present
under `src/` — only its criteria type (`src/config.py`) and the parsing
helpers (`src/util.py`) are.  Rules follow spec §4.2 strictly in order:
type gate, then postcode, then locality, then towards, else Irrelevant. -/
def classify (criteria : EventRelevancyConfig) (event : Models.Event) : Verdict :=
  if !(criteria.types.contains event.event_type) then .Irrelevant
  else if (Util.parse_postcode event.road_summary.postcode).any
      (fun p => criteria.postcodes.contains p) then .RelevantByPostcode
  else if (Util.parse_suburbs event.road_summary.locality).any
      (fun s => criteria.suburbs.contains s) then .RelevantBySuburb
  else
    match event.impact.towards with
    | some t => if criteria.towards_suburbs.contains t then .RelevantByTowards
                else .Irrelevant
    | none => .Irrelevant

end Criteria

namespace Ledger

/-- `src/config.py::NotifiedEvents.from_config`: if the path does not
exist, `Path.touch()` creates a zero-byte file and an empty version-1
model is returned in memory; otherwise the file contents are validated
against the schema (`model_validate_json`), raising on failure.  Returns
the in-memory model together with the file contents afterwards. -/
def NotifiedEvents.from_config (file : FileData) : Except Err (Model × FileData) :=
  match file with
  | .absent => .ok ({ events := [], version := 1 }, .rawEmpty)
  | .rawEmpty => .error .validationError
  | .corrupt => .error .validationError
  | .stored m => .ok (m, .stored m)

/-- `src/config.py::NotifiedEvents.contains`. -/
def NotifiedEvents.contains (m : Model) (event : Models.Event) : Bool :=
  m.events.any (fun ne => ne.event_id == event.id)

/-- `src/config.py::NotifiedEvents.append_event`: append the record to the
in-memory list, then rewrite the whole file from the in-memory state. -/
def NotifiedEvents.append_event (m : Model) (event : Models.Event)
    (reason : String) : Model × FileData :=
  let m' : Model := { m with events := m.events ++ [{ event_id := event.id, reason := reason }] }
  (m', .stored m')

end Ledger

namespace Orchestration

/-- Human-readable reason recorded in the ledger for a verdict. -/
def reasonOf : Criteria.Verdict → String
  | .Irrelevant => "Irrelevant"
  | .RelevantByPostcode => "RelevantByPostcode"
  | .RelevantBySuburb => "RelevantBySuburb"
  | .RelevantByTowards => "RelevantByTowards"

/-- Externally observable effects of a ledger-aware run: how many fetches
of the upstream feed happened, which event ids were sent to the sink, and
which were skipped as duplicates. -/
structure Trace where
  fetches : Nat
  sends : List Int
  skips : List Int
  deriving DecidableEq, Repr

/-- One pass over the relevant events in feed order: skip those already in
the ledger, otherwise send and append to the ledger synchronously.
Returns (sent ids, skipped ids, final model, final file). -/
def processRelevant (criteria : Criteria.EventRelevancyConfig) :
    Ledger.Model → Ledger.FileData → List Models.Event →
    List Int × List Int × Ledger.Model × Ledger.FileData
  | ledger, file, [] => ([], [], ledger, file)
  | ledger, file, e :: rest =>
    if Ledger.NotifiedEvents.contains ledger e then
      let (s, k, l', f') := processRelevant criteria ledger file rest
      (s, e.id :: k, l', f')
    else
      let (l1, f1) := Ledger.NotifiedEvents.append_event ledger e
        (reasonOf (Criteria.classify criteria e))
      let (s, k, l', f') := processRelevant criteria l1 f1 rest
      (e.id :: s, k, l', f')

/-- Modelled from the spec: the orchestration loop of §4.4 that consults
the notification ledger is not under `src/` — `src/main.py::main` never
calls `NotifiedEvents.from_config`, `contains` or `append_event`.  Steps:
load the ledger first (abort on validation failure before any fetch),
fetch the feed, classify, then process each relevant event in order. -/
def ledgerRun (criteria : Criteria.EventRelevancyConfig)
    (feed : List Models.Event) (file : Ledger.FileData) :
    Trace × Except Ledger.Err Ledger.FileData :=
  match Ledger.NotifiedEvents.from_config file with
  | .error e => ({ fetches := 0, sends := [], skips := [] }, .error e)
  | .ok (ledger, file1) =>
    let relevant := feed.filter
      (fun e => !(Criteria.classify criteria e == .Irrelevant))
    let (sends, skips, _, file2) := processRelevant criteria ledger file1 relevant
    ({ fetches := 1, sends := sends, skips := skips }, .ok file2)

end Orchestration

/-! ## Supporting lemmas -/

theorem toList_isEmpty (t : String) : t.toList.isEmpty = t.isEmpty := by
  rw [Bool.eq_iff_iff]
  simp only [List.isEmpty_eq_true, String.isEmpty_iff]
  constructor
  · intro h
    apply String.toList_inj.mp
    simpa using h
  · intro h
    subst h
    decide

theorem pyIsdigit_eq_isNat (t : String) : Util.pyIsdigit t = t.isNat := by
  unfold Util.pyIsdigit String.isNat
  rw [String.all_eq, toList_isEmpty]
  rfl

theorem toNat?_of_pyIsdigit (t : String) (h : Util.pyIsdigit t = true) :
    t.toNat? = some (Util.digitsToNat t.toList) := by
  rw [pyIsdigit_eq_isNat] at h
  unfold String.toNat?
  rw [if_pos h, String.foldl_eq]
  rfl

theorem toNat?_of_not_pyIsdigit (t : String) (h : Util.pyIsdigit t = false) :
    t.toNat? = none := by
  rw [pyIsdigit_eq_isNat] at h
  unfold String.toNat?
  rw [if_neg (by simp [h])]

theorem filter_digits_eq_filterMap (l : List String) :
    (l.filter Util.pyIsdigit).map (fun p => Int.ofNat (Util.digitsToNat p.toList)) =
      l.filterMap (fun t => (t.toNat?).map Int.ofNat) := by
  induction l with
  | nil => rfl
  | cons t rest ih =>
    cases h : Util.pyIsdigit t with
    | true =>
      rw [List.filter_cons_of_pos h, List.map_cons, ih,
        List.filterMap_cons, toNat?_of_pyIsdigit t h]
      rfl
    | false =>
      rw [List.filter_cons_of_neg (by simp [h]), ih,
        List.filterMap_cons, toNat?_of_not_pyIsdigit t h]
      rfl

theorem parse_postcode_eq_filterMap (S : String) (h : S ≠ "-") :
    Util.parse_postcode S =
      (Util.pySplit " / " S).filterMap (fun t => (t.toNat?).map Int.ofNat) := by
  unfold Util.parse_postcode
  rw [if_neg (by simp [h]), filter_digits_eq_filterMap]

theorem classify_type_gate (criteria : Criteria.EventRelevancyConfig)
    (event : Models.Event)
    (h : criteria.types.contains event.event_type = false) :
    Criteria.classify criteria event = .Irrelevant := by
  unfold Criteria.classify
  rw [h]
  rfl

theorem classify_postcode_iff (criteria : Criteria.EventRelevancyConfig)
    (event : Models.Event)
    (h : criteria.types.contains event.event_type = true) :
    Criteria.classify criteria event = .RelevantByPostcode ↔
      (Util.parse_postcode event.road_summary.postcode).any
        (fun p => criteria.postcodes.contains p) = true := by
  unfold Criteria.classify
  rw [h]
  cases hp : (Util.parse_postcode event.road_summary.postcode).any
      (fun p => criteria.postcodes.contains p) with
  | true => simp
  | false =>
    simp only [Bool.not_true, Bool.false_eq_true, if_false, false_iff]
    split
    · simp
    · split <;> simp
      split <;> simp

theorem classify_suburb_iff (criteria : Criteria.EventRelevancyConfig)
    (event : Models.Event)
    (h : criteria.types.contains event.event_type = true)
    (hp : (Util.parse_postcode event.road_summary.postcode).any
      (fun p => criteria.postcodes.contains p) = false) :
    Criteria.classify criteria event = .RelevantBySuburb ↔
      (Util.parse_suburbs event.road_summary.locality).any
        (fun s => criteria.suburbs.contains s) = true := by
  unfold Criteria.classify
  rw [h, hp]
  cases hs : (Util.parse_suburbs event.road_summary.locality).any
      (fun s => criteria.suburbs.contains s) with
  | true => simp
  | false =>
    simp only [Bool.not_true, Bool.false_eq_true, if_false, false_iff, hs]
    split <;> simp
    split <;> simp

/-! ## Concrete fixtures -/

/-- Interest criteria used in concrete instantiations. -/
def interestCriteria : Criteria.EventRelevancyConfig :=
  { types := ["Crash", "Hazard"]
    postcodes := [4001]
    suburbs := ["Kelvin Grove"]
    towards_suburbs := ["Gold Coast"] }

/-- A Special Event whose postcode, locality and towards all match the
criteria, but whose type is outside `interestCriteria.types`. -/
def specialEvent : Models.Event :=
  { id := 8
    area_alert := false
    status := "Published"
    published := none
    event_type := "Special Event"
    event_subtype := "General"
    event_priority := "Low"
    impact := { impact_type := "Closures", impact_subtype := none,
                towards := some "Gold Coast", delay := none }
    duration := { start := none, end_ := none }
    road_summary :=
      { road_name := some "Gympie Rd", locality := some "Kelvin Grove"
        postcode := "4001", local_government_area := "Brisbane", district := "Metropolitan" } }

/-- A Crash whose postcode field holds a junk first token and a matching
second token. -/
def crashEventM : Models.Event :=
  { id := 7
    area_alert := false
    status := "Published"
    published := none
    event_type := "Crash"
    event_subtype := "Multi-vehicle"
    event_priority := "High"
    impact := { impact_type := "Lanes blocked", impact_subtype := none,
                towards := none, delay := none }
    duration := { start := none, end_ := none }
    road_summary :=
      { road_name := some "Ann St", locality := some "Brisbane City"
        postcode := "abc / 4001", local_government_area := "Brisbane", district := "Metropolitan" } }

/-- A Hazard with no postcode data whose second locality token matches the
criteria after trimming. -/
def hazardEventM : Models.Event :=
  { id := 9
    area_alert := false
    status := "Published"
    published := none
    event_type := "Hazard"
    event_subtype := "Debris on road"
    event_priority := "Medium"
    impact := { impact_type := "Lanes affected", impact_subtype := none,
                towards := none, delay := none }
    duration := { start := none, end_ := none }
    road_summary :=
      { road_name := some "Kelvin Grove Rd", locality := some "Red Hill /  Kelvin Grove "
        postcode := "-", local_government_area := "Brisbane", district := "Metropolitan" } }

/-- Configuration for concrete runs of `src/main.py::main`. -/
def cfgBrisbane : Main.Config :=
  { QLD_TRAFFIC_BASE_URL := "https://api.qldtraffic.qld.gov.au/v2/"
    QLD_TRAFFIC_API_KEY := "apikey"
    HOME_ASSISTANT_BASE_URL := "http://homeassistant.local:8123"
    HOME_ASSISTANT_ACCESS_TOKEN := "token"
    relevant_postcodes := [4000]
    relevant_suburbs := ["Brisbane City"] }

/-- A relevant crash event (postcode 4000) in the `src/main.py` model. -/
def crashEvent : Main.Event :=
  { properties :=
    { area_alert := false
      status := "Published"
      published := none
      event_type := "Crash"
      event_subtype := "Multi-vehicle"
      impact := { impact_type := "Lanes blocked", impact_subtype := none, delay := none }
      event_priority := "High"
      road_summary :=
        { road_name := some "Ann St", locality := some "Brisbane City"
          postcode := "4000", local_government_area := "Brisbane" } } }

/-- A second, distinct relevant event (postcode 4000). -/
def hazardEvent : Main.Event :=
  { properties :=
    { area_alert := false
      status := "Published"
      published := none
      event_type := "Hazard"
      event_subtype := "Debris on road"
      impact := { impact_type := "Lanes affected", impact_subtype := none, delay := none }
      event_priority := "Medium"
      road_summary :=
        { road_name := some "Edward St", locality := some "Brisbane City"
          postcode := "4000", local_government_area := "Brisbane" } } }

/-- An event matching no configured postcode. -/
def roadworksEvent : Main.Event :=
  { properties :=
    { area_alert := false
      status := "Published"
      published := none
      event_type := "Roadworks"
      event_subtype := "Planned roadworks"
      impact := { impact_type := "No blockage", impact_subtype := none, delay := none }
      event_priority := "Low"
      road_summary :=
        { road_name := some "Logan Rd", locality := some "Eight Mile Plains"
          postcode := "4113", local_government_area := "Brisbane" } } }

/-- A consistent persisted ledger file holding the empty version-1 model. -/
def emptyStoredLedger : Ledger.FileData := .stored { events := [], version := 1 }

/-! ## Claims -/

/-- C1: against `src/main.py` as written, running the full loop twice on
the same fetched feed and the same ledger file does NOT make the second run
send zero notifications: `main` never consults the `NotifiedEvents` ledger,
so the first run leaves the ledger file unchanged and the second run posts
to the sink again (one send, not zero). -/
theorem main_second_run_sends_again :
    Main.sinkCount (Main.main cfgBrisbane "2026-01-01T07:00:00"
      [crashEvent] emptyStoredLedger) = 1 ∧
    Main.fileAfter emptyStoredLedger
      (Main.main cfgBrisbane "2026-01-01T07:00:00" [crashEvent] emptyStoredLedger) =
      emptyStoredLedger ∧
    Main.sinkCount (Main.main cfgBrisbane "2026-01-01T07:05:00" [crashEvent]
      (Main.fileAfter emptyStoredLedger
        (Main.main cfgBrisbane "2026-01-01T07:00:00" [crashEvent] emptyStoredLedger))) = 1 ∧
    (1 : Nat) ≠ 0 :=
  ⟨by decide, by decide, by decide, by decide⟩

/-- C2 counterexample: a feed with two relevant events and an empty
persisted ledger (so both are relevant and not yet notified) produces one
single sink call, not two: the sink-call count does not equal the number of
relevant, not-yet-notified events. -/
theorem two_relevant_events_single_sink_call :
    Main.sinkCount (Main.main cfgBrisbane "2026-01-01T07:00:00"
      [crashEvent, hazardEvent] emptyStoredLedger) = 1 ∧
    ([crashEvent, hazardEvent].filter
      (fun e => Main.is_relevant_event cfgBrisbane e)).length = 2 ∧
    (1 : Nat) ≠ 2 :=
  ⟨by decide, by decide, by decide⟩

/-- C2 (amended): for every run whose relevant-events list is non-empty,
`src/main.py::main` issues exactly one sink call in total — a single
aggregated message — independent of how many relevant events there are and
of the ledger file contents. -/
theorem nonempty_relevant_one_sink_call (config : Main.Config) (t : String)
    (feed : List Main.Event) (file : Ledger.FileData)
    (h : feed.filter (fun e => Main.is_relevant_event config e) ≠ []) :
    Main.sinkCount (Main.main config t feed file) = 1 := by
  unfold Main.sinkCount Main.main
  cases hf : feed.filter (fun e => Main.is_relevant_event config e) with
  | nil => exact absurd hf h
  | cons e rest => simp [hf, Main.notify_home_assistant]

/-- C2 witness: the amended theorem applied to a concrete two-event feed. -/
theorem nonempty_relevant_one_sink_call_witness :
    [crashEvent, hazardEvent].filter
      (fun e => Main.is_relevant_event cfgBrisbane e) ≠ [] ∧
    Main.sinkCount (Main.main cfgBrisbane "2026-01-01T07:00:00"
      [crashEvent, hazardEvent] emptyStoredLedger) = 1 :=
  ⟨by decide, nonempty_relevant_one_sink_call cfgBrisbane "2026-01-01T07:00:00"
    [crashEvent, hazardEvent] emptyStoredLedger (by decide)⟩

/-- C3: whenever the event's type is not a member of the criteria's types,
classification is Irrelevant — and stays Irrelevant for every possible
road summary (postcode/locality) and impact (towards) the event could
carry, since the type gate is evaluated first. -/
theorem type_gate_forces_irrelevant (criteria : Criteria.EventRelevancyConfig)
    (event : Models.Event)
    (h : criteria.types.contains event.event_type = false) :
    Criteria.classify criteria event = .Irrelevant ∧
    ∀ (rs : Models.RoadSummary) (imp : Models.Impact),
      Criteria.classify criteria
        { event with road_summary := rs, impact := imp } = .Irrelevant :=
  ⟨classify_type_gate _ _ h, fun _ _ => classify_type_gate _ _ h⟩

/-- C3 witness: a Special Event whose postcode, locality and towards all
match the criteria is still Irrelevant because its type is filtered out. -/
theorem type_gate_forces_irrelevant_witness :
    interestCriteria.types.contains specialEvent.event_type = false ∧
    Criteria.classify interestCriteria specialEvent = .Irrelevant :=
  ⟨by decide, (type_gate_forces_irrelevant interestCriteria specialEvent (by decide)).1⟩

/-- C4: the `"-"` sentinel parses to no postcodes; any other field is split
on `" / "` and exactly the tokens that are valid non-negative integers
(`String.toNat?` succeeds) are kept, with their decimal values; and for an
event passing the type gate, the verdict is RelevantByPostcode iff some
parsed postcode is among the criteria's postcodes. -/
theorem postcode_parsing_and_rule (S : String)
    (criteria : Criteria.EventRelevancyConfig) (event : Models.Event) :
    Util.parse_postcode "-" = [] ∧
    (S ≠ "-" → Util.parse_postcode S =
      (Util.pySplit " / " S).filterMap (fun t => (t.toNat?).map Int.ofNat)) ∧
    (criteria.types.contains event.event_type = true →
      (Criteria.classify criteria event = .RelevantByPostcode ↔
        (Util.parse_postcode event.road_summary.postcode).any
          (fun p => criteria.postcodes.contains p) = true)) :=
  ⟨by decide, parse_postcode_eq_filterMap S, classify_postcode_iff criteria event⟩

/-- C4 witness: a crash whose postcode field is `"abc / 4001"` — the junk
first token is discarded and the matching second token makes the event
RelevantByPostcode. -/
theorem postcode_parsing_and_rule_witness :
    ("abc / 4001" ≠ "-") ∧
    interestCriteria.types.contains crashEventM.event_type = true ∧
    Util.parse_postcode "abc / 4001" =
      (Util.pySplit " / " "abc / 4001").filterMap (fun t => (t.toNat?).map Int.ofNat) ∧
    Criteria.classify interestCriteria crashEventM = .RelevantByPostcode :=
  ⟨by decide, by decide,
    (postcode_parsing_and_rule "abc / 4001" interestCriteria crashEventM).2.1 (by decide),
    ((postcode_parsing_and_rule "abc / 4001" interestCriteria crashEventM).2.2
      (by decide)).mpr (by decide)⟩

/-- C5: locality parsing maps `None` and the `"-"` sentinel to no values
and otherwise splits on `" / "` trimming each token; and for an event
passing the type gate whose postcode rule found no match, the verdict is
RelevantBySuburb iff some parsed locality token is a member of the
criteria's suburbs (the claim's forward implication is the `mpr` of the
iff). -/
theorem suburb_parsing_and_rule (criteria : Criteria.EventRelevancyConfig)
    (event : Models.Event) :
    Util.parse_suburbs none = [] ∧
    Util.parse_suburbs (some "-") = [] ∧
    (∀ s : String, s ≠ "-" →
      Util.parse_suburbs (some s) = (Util.pySplit " / " s).map Util.pyStrip) ∧
    (criteria.types.contains event.event_type = true →
      (Util.parse_postcode event.road_summary.postcode).any
        (fun p => criteria.postcodes.contains p) = false →
      (Criteria.classify criteria event = .RelevantBySuburb ↔
        (Util.parse_suburbs event.road_summary.locality).any
          (fun s => criteria.suburbs.contains s) = true)) := by
  refine ⟨rfl, by decide, fun s hs => ?_, classify_suburb_iff criteria event⟩
  simp only [Util.parse_suburbs]
  rw [if_neg (by simp [hs])]

/-- C5 witness: a hazard with sentinel postcode and locality
`"Red Hill /  Kelvin Grove "` whose trimmed second token matches the
criteria, making it RelevantBySuburb. -/
theorem suburb_parsing_and_rule_witness :
    interestCriteria.types.contains hazardEventM.event_type = true ∧
    (Util.parse_postcode hazardEventM.road_summary.postcode).any
      (fun p => interestCriteria.postcodes.contains p) = false ∧
    ("Red Hill /  Kelvin Grove " ≠ "-") ∧
    Util.parse_suburbs (some "Red Hill /  Kelvin Grove ") =
      (Util.pySplit " / " "Red Hill /  Kelvin Grove ").map Util.pyStrip ∧
    Criteria.classify interestCriteria hazardEventM = .RelevantBySuburb :=
  ⟨by decide, by decide, by decide,
    (suburb_parsing_and_rule interestCriteria hazardEventM).2.2.1
      "Red Hill /  Kelvin Grove " (by decide),
    ((suburb_parsing_and_rule interestCriteria hazardEventM).2.2.2
      (by decide) (by decide)).mpr (by decide)⟩

/-- C6: loading the ledger from an absent path returns the empty version-1
model in memory, but persists only the zero-byte file `Path.touch()`
creates — NOT the serialized empty ledger — so a second load of the same
path fails pydantic validation instead of yielding the empty ledger. -/
theorem absent_path_touch_breaks_reload :
    Ledger.NotifiedEvents.from_config .absent =
      .ok ({ events := [], version := 1 }, .rawEmpty) ∧
    Ledger.NotifiedEvents.from_config .rawEmpty = .error .validationError :=
  ⟨rfl, rfl⟩

/-- C7: appending an (event id, reason) record and reloading the ledger
from the rewritten file yields exactly the appended in-memory model: the
new record is a member and the last record, and the membership check for
that event returns true. -/
theorem ledger_append_load_roundtrip (m : Ledger.Model) (event : Models.Event)
    (reason : String) :
    Ledger.NotifiedEvents.from_config
        (Ledger.NotifiedEvents.append_event m event reason).2 =
      .ok (Ledger.NotifiedEvents.append_event m event reason) ∧
    ({ event_id := event.id, reason := reason } : Ledger.NotifiedEvent) ∈
      (Ledger.NotifiedEvents.append_event m event reason).1.events ∧
    (Ledger.NotifiedEvents.append_event m event reason).1.events.getLast? =
      some { event_id := event.id, reason := reason } ∧
    Ledger.NotifiedEvents.contains
      (Ledger.NotifiedEvents.append_event m event reason).1 event = true := by
  refine ⟨rfl, ?_, ?_, ?_⟩
  · simp [Ledger.NotifiedEvents.append_event]
  · simp [Ledger.NotifiedEvents.append_event, List.getLast?_concat]
  · simp [Ledger.NotifiedEvents.append_event, Ledger.NotifiedEvents.contains]

/-- C8: a ledger file that exists but fails schema validation makes the
load raise (an error result, never a repaired or empty ledger), and the
ledger-aware run aborts with that error before any fetch of the feed and
before any notification send. -/
theorem corrupt_ledger_aborts_before_fetch
    (criteria : Criteria.EventRelevancyConfig) (feed : List Models.Event) :
    Orchestration.ledgerRun criteria feed .corrupt =
      ({ fetches := 0, sends := [], skips := [] }, .error .validationError) ∧
    Orchestration.ledgerRun criteria feed .rawEmpty =
      ({ fetches := 0, sends := [], skips := [] }, .error .validationError) ∧
    Ledger.NotifiedEvents.from_config .corrupt = .error .validationError :=
  ⟨rfl, rfl, rfl⟩

/-- C9: when no fetched event is relevant, the run returns successfully
having made no sink call, no print, and no change to the ledger file; its
only effect is the single structured log line carrying the run's logical
timestamp. -/
theorem empty_relevant_set_log_only (config : Main.Config) (t : String)
    (feed : List Main.Event) (file : Ledger.FileData)
    (h : ∀ e ∈ feed, Main.is_relevant_event config e = false) :
    Main.main config t feed file =
      .ok { logs := [("no relevant events found", t)], prints := 0,
            sinkCalls := [], file := file } := by
  have hf : feed.filter (fun e => Main.is_relevant_event config e) = [] := by
    rw [List.filter_eq_nil_iff]
    intro a ha
    simp [h a ha]
  unfold Main.main
  rw [hf]
  rfl

/-- C9 witness: a one-event feed matching no criterion runs to completion
with only the log line. -/
theorem empty_relevant_set_log_only_witness :
    (∀ e ∈ [roadworksEvent], Main.is_relevant_event cfgBrisbane e = false) ∧
    Main.main cfgBrisbane "2026-01-01T07:00:00" [roadworksEvent] emptyStoredLedger =
      .ok { logs := [("no relevant events found", "2026-01-01T07:00:00")], prints := 0,
            sinkCalls := [], file := emptyStoredLedger } :=
  ⟨by decide, empty_relevant_set_log_only cfgBrisbane "2026-01-01T07:00:00"
    [roadworksEvent] emptyStoredLedger (by decide)⟩

/-- C10: `src/main.py::main` returns early when the relevant list is
empty, so `notify_home_assistant` is only ever invoked on a non-empty
list: the failure of its leading-element destructuring is unreachable for
every configuration, timestamp, feed and ledger file. -/
theorem notify_empty_branch_unreachable (config : Main.Config) (t : String)
    (feed : List Main.Event) (file : Ledger.FileData) :
    Main.main config t feed file ≠ .error .emptyRelevantList := by
  unfold Main.main
  cases hf : feed.filter (fun e => Main.is_relevant_event config e) with
  | nil => simp [hf]
  | cons e rest => simp [hf, Main.notify_home_assistant]
